import Mathlib

/-!
Verification of the authentication / OTP core of the ai-content-server
backend.  The definitions below are a shallow embedding of
`src/app/models/otp.models.ts`, `src/app/services/auth.service.ts` and
the User model (the `class User` document concatenated into
`src/app/models/comments.models.ts`, lines 223-562): the Sequelize rows
become Lean structures, the database becomes an explicit `DB` state
threaded through each operation, timestamps are naturals (milliseconds
since epoch), and fallible service functions return `Except AppError`.

Randomness (crypto.randomBytes code generation) and JWT signing are kept
abstract: the generated code is an explicit parameter, and a token is
its decoded claim set (an `Option` models `jwt.verify` throwing on a bad
signature or expiry).  The OTP model is `paranoid` in Sequelize, but no
code path in the repository ever soft-deletes an OTP row, so the
implicit `deletedAt IS NULL` filters are identity on every reachable
state and are omitted from the embedding.
-/

deriving instance DecidableEq for Except

namespace AuthCore

/-- JS `email.toLowerCase()` (and the case folding behind `Op.iLike`),
written over the character list so that it evaluates inside `decide`. -/
def lowerStr (s : String) : String :=
  ⟨s.data.map Char.toLower⟩

/-- OTP purposes, from `TOTPPurpose` in `src/app/models/otp.models.ts`. -/
inductive TOTPPurpose
  | password_reset
  | email_verification
  | twofa
  | phone_verification
deriving DecidableEq

/-- User account status enum, from the users table / user model. -/
inductive UserStatus
  | active
  | inactive
  | blocked
deriving DecidableEq

/-- A stored user row (the fields the auth workflows read).  The
`password` field holds the stored hash, never the plaintext. -/
structure UserRec where
  id : String
  firstName : String
  lastName : String
  email : String
  password : String
  emailVerified : Bool
  status : UserStatus
  role : String
  credits : Int
deriving DecidableEq

/-- A stored OTP row, from `OTPAttributes` in `src/app/models/otp.models.ts`.
`expiresAt` and `createdAt` are milliseconds since epoch. -/
structure OTPRec where
  id : Nat
  userId : String
  code : String
  purpose : TOTPPurpose
  expiresAt : Nat
  used : Bool
  createdAt : Nat
deriving DecidableEq

/-- The database state threaded through every operation.  `nextOtpId`
models primary-key generation for new OTP rows. -/
structure DB where
  users : List UserRec
  otps : List OTPRec
  nextOtpId : Nat
deriving DecidableEq

/-- Embedding of `AppError(message, statusCode)` from `src/app/utils/app.error.ts`. -/
structure AppError where
  message : String
  statusCode : Nat
deriving DecidableEq

/-- The `where` predicate of the invalidation update in `OTP.createOTP`
(`userId`, `purpose`, `used: false`, `expiresAt: { [Op.gt]: new Date() }`):
the row is a still-pending OTP of this user and purpose. -/
def pendingB (now : Nat) (userId : String) (purpose : TOTPPurpose) (o : OTPRec) : Bool :=
  decide (o.userId = userId) && decide (o.purpose = purpose)
    && !o.used && decide (now < o.expiresAt)

/-- The `where` predicate of `OTP.verifyOTP` (and of the service-level
OTP `findOne`): user, code and purpose match exactly, `used = false`,
and `expiresAt > now`. -/
def otpQueryB (now : Nat) (userId code : String) (purpose : TOTPPurpose) (o : OTPRec) : Bool :=
  decide (o.userId = userId) && decide (o.code = code) && decide (o.purpose = purpose)
    && !o.used && decide (now < o.expiresAt)

/-- JS `options?.expiresInMinutes || 15` from `OTP.createOTP`: a missing
option — and, by JS falsiness, an explicit `0` — defaults to 15. -/
def defaultedMinutes : Option Nat → Nat
  | none => 15
  | some m => if m = 0 then 15 else m

/-- Embedding of `OTP.createOTP` (`src/app/models/otp.models.ts` lines 125-168):
mark every pending OTP of this (user, purpose) as used, then insert the
new row with `used = false` and `expiresAt = now + minutes`.  The
generated code is the `code` parameter (crypto.randomBytes is the only
thing abstracted).  Returns the created row and the new state. -/
def createOTP (db : DB) (now : Nat) (userId : String) (purpose : TOTPPurpose)
    (code : String) (expiresInMinutes : Option Nat) : OTPRec × DB :=
  let mins := defaultedMinutes expiresInMinutes
  let expiresAt := now + mins * 60000
  let invalidated := db.otps.map fun o =>
    if pendingB now userId purpose o then { o with used := true } else o
  let newOtp : OTPRec :=
    { id := db.nextOtpId, userId := userId, code := code, purpose := purpose
      expiresAt := expiresAt, used := false, createdAt := now }
  (newOtp, { db with otps := invalidated ++ [newOtp], nextOtpId := db.nextOtpId + 1 })

/-- Embedding of `OTP.verifyOTP` (lines 177-193): a pure `findOne` on the pending
matching predicate; mutates nothing. -/
def verifyOTP (db : DB) (now : Nat) (userId code : String) (purpose : TOTPPurpose) :
    Option OTPRec :=
  db.otps.find? (otpQueryB now userId code purpose)

/-- An `update({ used: true })` targeting one row by primary key: the
write performed by `otp.markAsUsed()` / `otpRecord.update({ used: true })`.
The write is unconditional — no `used = false` predicate. -/
def markUsedById (db : DB) (otpId : Nat) : DB :=
  { db with otps := db.otps.map fun o =>
      if o.id = otpId then { o with used := true } else o }

/-- Embedding of `OTP.verifyAndConsumeOTP` (lines 202-215): `verifyOTP` (a read),
then `markAsUsed` (a separate unconditional write) when a row was found. -/
def verifyAndConsumeOTP (db : DB) (now : Nat) (userId code : String)
    (purpose : TOTPPurpose) : Option OTPRec × DB :=
  match verifyOTP db now userId code purpose with
  | some o => (some { o with used := true }, markUsedById db o.id)
  | none => (none, db)

/-- Embedding of `OTP.cleanupExpiredOTPs` (lines 247-260): mark every expired unused
row as used; returns the affected count. -/
def cleanupExpiredOTPs (db : DB) (now : Nat) : Nat × DB :=
  let hit := fun (o : OTPRec) => !o.used && decide (o.expiresAt < now)
  ((db.otps.filter hit).length,
   { db with otps := db.otps.map fun o =>
       if hit o then { o with used := true } else o })

/-! ### Credential store (User model)

The User model (`class User`) lives in
`src/app/models/comments.models.ts`, concatenated after the Comment
model (lines 223-562 of that file): `verifyPassword` delegates to
`bcrypt.compare` (line 296), and the `beforeCreate` / `beforeUpdate`
hooks hash the password with `bcrypt.hash` at salt rounds 12 (lines
485-508).  `beforeUpdate` hashes only when `user.changed("password")`
reports a modified value. -/

/-- Embedding of `bcrypt.hash(password, salt)` as invoked by the User
model's hooks (`comments.models.ts` lines 485-508, salt rounds 12).
The salt is abstracted into a deterministic tag; this keeps exactly the
two properties the code relies on: `bcrypt.compare` succeeds precisely
on the hashed plaintext, and a hash value is never its own plaintext
(the tag makes `bcryptHash p` strictly longer than `p`). -/
def bcryptHash (plain : String) : String :=
  "$2b$12$" ++ plain

/-- Embedding of `User.verifyPassword` (`comments.models.ts` line 296):
`bcrypt.compare(password, this.password)` — true exactly when the
stored value is the hash of the presented plaintext. -/
def verifyPassword (storedHash plain : String) : Bool :=
  decide (storedHash = bcryptHash plain)

/-! ### Token issuer (`generateAuthTokens`, jwt sign/verify)

A signed token is modelled by its decoded claim set; `jwt.verify` on an
inbound token string is modelled by an `Option` of the decoded payload,
`none` standing for a thrown `JsonWebTokenError` (bad signature or
expired). -/

/-- Embedding of `TokenType` from `src/app/services/auth.service.ts`. -/
inductive TokenType
  | ACCESS
  | REFRESH
  | RESET_PASSWORD
  | EMAIL_VERIFICATION
deriving DecidableEq

/-- Embedding of `AuthTokenPayload` from `src/app/services/auth.service.ts`. -/
structure AuthTokenPayload where
  id : String
  email : String
  role : String
  type : TokenType
deriving DecidableEq

/-- The access/refresh pair returned by `generateAuthTokens`. -/
structure AuthTokens where
  accessToken : AuthTokenPayload
  refreshToken : AuthTokenPayload
deriving DecidableEq

/-- Embedding of `generateAuthTokens` (lines 49-68): signs `{id, email, role}` once
with type ACCESS and once with type REFRESH. -/
def generateAuthTokens (u : UserRec) : AuthTokens :=
  { accessToken := { id := u.id, email := u.email, role := u.role, type := TokenType.ACCESS }
    refreshToken := { id := u.id, email := u.email, role := u.role, type := TokenType.REFRESH } }

/-! ### Auth service workflows (`src/app/services/auth.service.ts`) -/

/-- Constants from `src/app/services/auth.service.ts` lines 12-15. -/
def OTP_EXPIRY_MINUTES : Nat := 10

def JWT_EXPIRY_MINUTES : Nat := 15

def RATE_LIMIT_WINDOW_MS : Nat := 15 * 60 * 1000

def MAX_ATTEMPTS : Nat := 3

/-- The user lookup in `login`:
`User.findOne({where: {email: email.toLowerCase(), status: ["active", "inactive"]}})`.
Note the status filter: a blocked user is never returned. -/
def loginFindUser (db : DB) (email : String) : Option UserRec :=
  db.users.find? fun v =>
    decide (v.email = lowerStr email)
      && decide (v.status = UserStatus.active ∨ v.status = UserStatus.inactive)

/-- Embedding of `User.findByPk(id)`. -/
def findByPk (db : DB) (userId : String) : Option UserRec :=
  db.users.find? fun v => decide (v.id = userId)

/-- Embedding of `User.findOne({where: {email: {[Op.iLike]: email}}})`: a
case-insensitive email lookup (the claims never pass pattern
metacharacters, so iLike is plain case-insensitive equality). -/
def findUserByEmailILike (db : DB) (email : String) : Option UserRec :=
  db.users.find? fun v => decide (lowerStr v.email = lowerStr email)

/-- The user summary object embedded in the login response. -/
structure LoginUserView where
  id : String
  firstName : String
  lastName : String
  email : String
  role : String
  credits : Int
  emailVerified : Bool
deriving DecidableEq

/-- The login response body. -/
structure LoginResult where
  message : String
  user : LoginUserView
  accessToken : AuthTokenPayload
  refreshToken : AuthTokenPayload
deriving DecidableEq

/-- Embedding of `login` (lines 131-179): lookup restricted to status active/inactive,
then password check, then the (unreachable, see claim C3) blocked check,
then token issuance. -/
def login (db : DB) (email password : String) : Except AppError LoginResult :=
  match loginFindUser db email with
  | none => Except.error ⟨"INVALID_CREDENTIALS", 401⟩
  | some u =>
    if !verifyPassword u.password password then
      Except.error ⟨"INVALID_CREDENTIALS", 401⟩
    else if u.status = UserStatus.blocked then
      Except.error ⟨"ACCOUNT_BLOCKED", 403⟩
    else
      let t := generateAuthTokens u
      Except.ok
        { message := "Login successful"
          user :=
            { id := u.id, firstName := u.firstName, lastName := u.lastName
              email := u.email, role := u.role, credits := u.credits
              emailVerified := u.emailVerified }
          accessToken := t.accessToken, refreshToken := t.refreshToken }

/-- Embedding of `refreshToken` (lines 310-342).  `decoded` is the result of
`jwt.verify` on the presented refresh-token string (`none` = thrown
`JsonWebTokenError`, caught into TOKEN_REFRESH_ERROR).  There is no
account-status check on this path. -/
def refreshTokenService (db : DB) (decoded : Option AuthTokenPayload) :
    Except AppError AuthTokens :=
  match decoded with
  | none => Except.error ⟨"TOKEN_REFRESH_ERROR", 401⟩
  | some p =>
    if p.type ≠ TokenType.REFRESH then
      Except.error ⟨"INVALID_TOKEN_TYPE", 401⟩
    else
      match findByPk db p.id with
      | none => Except.error ⟨"USER_NOT_FOUND", 404⟩
      | some u => Except.ok (generateAuthTokens u)

/-- The rate-limit count in `forgotPassword` / `requestEmailVerification`:
`OTP.count({where: {userId, purpose, createdAt: {[Op.gt]: new Date(Date.now() - RATE_LIMIT_WINDOW_MS)}}})`. -/
def countRecentOtps (db : DB) (now : Nat) (userId : String) (purpose : TOTPPurpose) : Nat :=
  (db.otps.filter fun o =>
    decide (o.userId = userId) && decide (o.purpose = purpose)
      && decide (now - RATE_LIMIT_WINDOW_MS < o.createdAt)).length

/-- A `{ message }` response body. -/
structure MsgResponse where
  message : String
deriving DecidableEq

/-- The uniform forgot-password response body. -/
def forgotSuccessMessage : String :=
  "If the user exists, a password reset email has been sent"

/-- Embedding of `forgotPassword` (lines 344-405).  The transaction it opens is passed
only to the user `findOne` and the OTP `count` — both reads.
`OTP.createOTP` accepts no transaction, so its two writes (invalidation
update and row insert) run on the autocommit connection and are applied
directly to the database state.  `failBeforeCommit` injects a failure
thrown between `OTP.createOTP` and `transaction.commit()` (the mail /
logging / commit step): the source's catch block then calls
`transaction.rollback()` — which undoes nothing, the transaction holding
no writes — and rethrows PASSWORD_RESET_ERROR.  `newCode` is the code
produced by the crypto generator. -/
def forgotPassword (db : DB) (now : Nat) (email newCode : String)
    (failBeforeCommit : Bool) : Except AppError MsgResponse × DB :=
  match findUserByEmailILike db email with
  | none => (Except.ok ⟨forgotSuccessMessage⟩, db)
  | some u =>
    if MAX_ATTEMPTS ≤ countRecentOtps db now u.id TOTPPurpose.password_reset then
      (Except.ok ⟨forgotSuccessMessage⟩, db)
    else
      let res := createOTP db now u.id TOTPPurpose.password_reset newCode (some OTP_EXPIRY_MINUTES)
      if failBeforeCommit then
        (Except.error ⟨"PASSWORD_RESET_ERROR", 500⟩, res.2)
      else
        (Except.ok ⟨forgotSuccessMessage⟩, res.2)

/-- The decoded reset-token claim set signed in `verifyOtp` and checked
in `resetPassword`. -/
structure ResetTokenPayload where
  sub : String
  purpose : String
  iat : Nat
deriving DecidableEq

/-- Embedding of `verifyOtp` (lines 407-469): case-insensitive user lookup, then
`OTP.findOne` on the pending matching predicate ordered by `createdAt`
DESC, then an update setting `used: true` on the found row, then a
reset JWT bound to purpose password_reset. -/
def verifyOtpService (db : DB) (now : Nat) (email code : String) :
    Except AppError ResetTokenPayload × DB :=
  match findUserByEmailILike db email with
  | none => (Except.error ⟨"INVALID_OTP", 400⟩, db)
  | some u =>
    match (db.otps.filter (otpQueryB now u.id code TOTPPurpose.password_reset)).argmax
        OTPRec.createdAt with
    | none => (Except.error ⟨"INVALID_OTP", 400⟩, db)
    | some r =>
      (Except.ok { sub := u.id, purpose := "password_reset", iat := now / 1000 },
       markUsedById db r.id)

/-- The per-row effect of `user.update({password: newPlain})` through
the `beforeUpdate` hook (`comments.models.ts` lines 502-508): the hook
re-hashes only when `user.changed("password")` holds, i.e. when the
assigned value differs from the stored string — assigning the stored
hash string verbatim leaves the credential untouched. -/
def applyPasswordUpdate (newPlain : String) (v : UserRec) : UserRec :=
  if newPlain = v.password then v else { v with password := bcryptHash newPlain }

/-- Embedding of `user.update({password: newPassword})` in
`resetPassword` / `changePassword`: the row with the user's id goes
through `applyPasswordUpdate`, every other row is untouched. -/
def updateUserPassword (db : DB) (userId newPlain : String) : DB :=
  { db with users := db.users.map fun v =>
      if v.id = userId then applyPasswordUpdate newPlain v else v }

/-- The row transform of the bulk update in `resetPassword`:
`OTP.update({used: true}, {where: {userId, purpose: "password_reset", used: false}})`. -/
def resetInvalidate (userId : String) (o : OTPRec) : OTPRec :=
  if decide (o.userId = userId) && decide (o.purpose = TOTPPurpose.password_reset) && !o.used
  then { o with used := true } else o

/-- Embedding of `resetPassword` (lines 471-535).  `payload` is the result of
`jwt.verify` on the reset token (`none` = thrown `JsonWebTokenError`). -/
def resetPassword (db : DB) (payload : Option ResetTokenPayload) (newPassword : String) :
    Except AppError MsgResponse × DB :=
  match payload with
  | none => (Except.error ⟨"INVALID_TOKEN", 401⟩, db)
  | some p =>
    if p.purpose ≠ "password_reset" then
      (Except.error ⟨"INVALID_TOKEN", 400⟩, db)
    else
      match findByPk db p.sub with
      | none => (Except.error ⟨"USER_NOT_FOUND", 404⟩, db)
      | some u =>
        if verifyPassword u.password newPassword then
          (Except.error ⟨"SAME_PASSWORD", 400⟩, db)
        else
          let db1 := updateUserPassword db u.id newPassword
          let db2 := { db1 with otps := db1.otps.map (resetInvalidate u.id) }
          (Except.ok ⟨"Password updated successfully"⟩, db2)

/-- Embedding of `requestEmailVerification` (lines 537-593).  Unlike `forgotPassword`,
hitting the rate limit throws RATE_LIMITED (429). -/
def requestEmailVerification (db : DB) (now : Nat) (userId newCode : String) :
    Except AppError MsgResponse × DB :=
  match findByPk db userId with
  | none => (Except.error ⟨"USER_NOT_FOUND", 404⟩, db)
  | some u =>
    if u.emailVerified then
      (Except.ok ⟨"Email is already verified"⟩, db)
    else if MAX_ATTEMPTS ≤ countRecentOtps db now u.id TOTPPurpose.email_verification then
      (Except.error ⟨"RATE_LIMITED", 429⟩, db)
    else
      let res := createOTP db now u.id TOTPPurpose.email_verification newCode
        (some OTP_EXPIRY_MINUTES)
      (Except.ok ⟨"Verification code sent to your email"⟩, res.2)

/-- The HTTP status the thin controller layer produces for a service
result: 200 on success (`res.status(HTTP.SUCCESS.OK)`), the AppError's
`statusCode` through the error middleware otherwise. -/
def httpStatus {α : Type} (r : Except AppError α) : Nat :=
  match r with
  | Except.ok _ => 200
  | Except.error e => e.statusCode

/-! ### Interleaving model of concurrent `verifyAndConsumeOTP` calls

`OTP.verifyAndConsumeOTP` is a `findOne` read followed by a separate
`save` write.  Each call is modelled as two atomic micro-steps against
the shared database; a schedule interleaves the steps of two calls. -/

/-- The control state of one in-flight `verifyAndConsumeOTP` call:
before the read, after the read (holding the found row id or not), and
finished (with its success flag: `true` = consumed, `false` = the null
return the service surfaces as INVALID_OTP). -/
inductive ConsumerState
  | start
  | found (otpId : Nat)
  | notFound
  | done (succeeded : Bool)
deriving DecidableEq

/-- One micro-step of a `verifyAndConsumeOTP` call: from `start`, the
`verifyOTP` read; from `found`, the `markAsUsed` write (unconditional —
no `used = false` predicate, no affected-row check). -/
def consumerStep (now : Nat) (userId code : String) (purpose : TOTPPurpose) :
    DB × ConsumerState → DB × ConsumerState
  | (db, ConsumerState.start) =>
    match verifyOTP db now userId code purpose with
    | some o => (db, ConsumerState.found o.id)
    | none => (db, ConsumerState.notFound)
  | (db, ConsumerState.found i) => (markUsedById db i, ConsumerState.done true)
  | (db, ConsumerState.notFound) => (db, ConsumerState.done false)
  | (db, ConsumerState.done b) => (db, ConsumerState.done b)

/-- Two concurrent `verifyAndConsumeOTP` calls over one shared database. -/
structure RaceState where
  db : DB
  t0 : ConsumerState
  t1 : ConsumerState
deriving DecidableEq

/-- Run the thread named by the scheduler entry (`false` = first call,
`true` = second call) for one micro-step. -/
def raceStep (now : Nat) (userId code : String) (purpose : TOTPPurpose)
    (s : RaceState) (tid : Bool) : RaceState :=
  if tid then
    let r := consumerStep now userId code purpose (s.db, s.t1)
    { s with db := r.1, t1 := r.2 }
  else
    let r := consumerStep now userId code purpose (s.db, s.t0)
    { s with db := r.1, t0 := r.2 }

/-- Execute a full schedule of micro-steps. -/
def runRace (now : Nat) (userId code : String) (purpose : TOTPPurpose)
    (db : DB) (sched : List Bool) : RaceState :=
  sched.foldl (raceStep now userId code purpose) ⟨db, ConsumerState.start, ConsumerState.start⟩

/-- Flag monotonicity: `used` is one-way -- every row that is used before an operation is
still used (under the same row id) after it. -/
def usedPreserved (pre post : DB) : Prop :=
  ∀ o ∈ pre.otps, o.used = true → ∀ o' ∈ post.otps, o'.id = o.id → o'.used = true

/-- Whether a service result is a success (the controller's 200 path). -/
def exceptIsOk {ε α : Type} : Except ε α → Bool
  | Except.ok _ => true
  | Except.error _ => false

/-! ### Concrete fixtures used to evaluate the operations -/

/-- A reference instant: 10^7 ms.  The trailing rate-limit window then
starts at 10^7 - 900000 = 9100000. -/
def now0 : Nat := 10000000

def pw3 : String := "Secret1"

def email3b : String := "blocked@x.com"

def email3i : String := "inactive@x.com"

/-- A blocked user whose stored hash matches `pw3`. -/
def user3b : UserRec :=
  { id := "u3b", firstName := "B", lastName := "B", email := email3b
    password := bcryptHash pw3, emailVerified := true
    status := UserStatus.blocked, role := "user", credits := 0 }

/-- An inactive user whose stored hash matches `pw3`. -/
def user3i : UserRec :=
  { id := "u3i", firstName := "I", lastName := "I", email := email3i
    password := bcryptHash pw3, emailVerified := true
    status := UserStatus.inactive, role := "user", credits := 0 }

def db3 : DB := { users := [user3b, user3i], otps := [], nextOtpId := 1 }

def email6 : String := "u6@x.com"

def email6upper : String := "U6@X.COM"

def code6 : String := "222222"

def user6 : UserRec :=
  { id := "u6", firstName := "F", lastName := "L", email := email6
    password := "h", emailVerified := false
    status := UserStatus.active, role := "user", credits := 0 }

/-- A password-reset OTP created inside the trailing window. -/
def otp6 (i : Nat) : OTPRec :=
  { id := i, userId := "u6", code := "111111", purpose := TOTPPurpose.password_reset
    expiresAt := 10500000, used := false, createdAt := 9950000 }

def db6 : DB := { users := [user6], otps := [otp6 1, otp6 2, otp6 3], nextOtpId := 4 }

def uid7 : String := "u7"

def code7 : String := "333333"

def user7 : UserRec :=
  { id := uid7, firstName := "F", lastName := "L", email := "u7@x.com"
    password := "h", emailVerified := false
    status := UserStatus.active, role := "user", credits := 0 }

/-- An email-verification OTP created inside the trailing window. -/
def otp7 (i : Nat) : OTPRec :=
  { id := i, userId := uid7, code := "000000", purpose := TOTPPurpose.email_verification
    expiresAt := 10500000, used := false, createdAt := 9950000 }

def db7 : DB := { users := [user7], otps := [otp7 1, otp7 2, otp7 3], nextOtpId := 4 }

def uidR : String := "uR"

def codeR : String := "123456"

def nowR : Nat := 1000

/-- A single pending password-reset OTP, valid at `nowR`. -/
def otpR : OTPRec :=
  { id := 1, userId := uidR, code := codeR, purpose := TOTPPurpose.password_reset
    expiresAt := 2000, used := false, createdAt := 100 }

def dbR : DB := { users := [], otps := [otpR], nextOtpId := 2 }

/-- Both reads before both writes. -/
def schedRacy : List Bool := [false, true, false, true]

/-- First call runs to completion before the second starts. -/
def schedSerial : List Bool := [false, false, true, true]

def email4 : String := "u4@x.com"

def code4 : String := "123123"

def user4 : UserRec :=
  { id := "u4", firstName := "F", lastName := "L", email := email4
    password := "h", emailVerified := true
    status := UserStatus.active, role := "user", credits := 0 }

/-- A pending password-reset OTP for `user4`, alive at `now0`. -/
def otp4old : OTPRec :=
  { id := 7, userId := "u4", code := "999999", purpose := TOTPPurpose.password_reset
    expiresAt := 10400000, used := false, createdAt := 9950000 }

def db4 : DB := { users := [user4], otps := [otp4old], nextOtpId := 8 }

/-- The row `OTP.createOTP` inserts during the faulty forgot-password run. -/
def newOtp4 : OTPRec :=
  { id := 8, userId := "u4", code := code4, purpose := TOTPPurpose.password_reset
    expiresAt := 10600000, used := false, createdAt := now0 }

def email8 : String := "u8@x.com"

def code8 : String := "654321"

def user8 : UserRec :=
  { id := "u8", firstName := "F", lastName := "L", email := email8
    password := "h", emailVerified := true
    status := UserStatus.active, role := "user", credits := 0 }

/-- The pending password-reset OTP consumed in the C8 witness. -/
def otp8 : OTPRec :=
  { id := 1, userId := "u8", code := code8, purpose := TOTPPurpose.password_reset
    expiresAt := 5000000, used := false, createdAt := 100 }

/-- An already-used row with the same code (invalidated earlier). -/
def otp8used : OTPRec :=
  { id := 2, userId := "u8", code := code8, purpose := TOTPPurpose.password_reset
    expiresAt := 5000000, used := true, createdAt := 50 }

def db8 : DB := { users := [user8], otps := [otp8, otp8used], nextOtpId := 3 }

/-- State `db8` after the consuming call marked `otp8` used. -/
def db8after : DB :=
  { users := [user8], otps := [{ otp8 with used := true }, otp8used], nextOtpId := 3 }

def tok8 : ResetTokenPayload := { sub := "u8", purpose := "password_reset", iat := 1 }

def pwOld9 : String := "oldpw"

def pwNew9 : String := "newpw"

/-- A new password that is verbatim the stored bcrypt hash string: it
differs from the old plaintext and passes the SAME_PASSWORD check, yet
`changed("password")` sees no modification when it is assigned. -/
def cornerPw9 : String := bcryptHash pwOld9

def email9 : String := "u9@x.com"

def user9 : UserRec :=
  { id := "u9", firstName := "F", lastName := "L", email := email9
    password := bcryptHash pwOld9, emailVerified := true
    status := UserStatus.active, role := "user", credits := 0 }

/-- A pending password-reset OTP for `user9`. -/
def otp9 : OTPRec :=
  { id := 1, userId := "u9", code := "777777", purpose := TOTPPurpose.password_reset
    expiresAt := 99999999, used := false, createdAt := 0 }

def db9 : DB := { users := [user9], otps := [otp9], nextOtpId := 2 }

def p9 : ResetTokenPayload := { sub := "u9", purpose := "password_reset", iat := 0 }

def userB10 : UserRec :=
  { id := "ub", firstName := "F", lastName := "L", email := "b10@x.com"
    password := "h", emailVerified := true
    status := UserStatus.blocked, role := "user", credits := 0 }

def dbB10 : DB := { users := [userB10], otps := [], nextOtpId := 1 }

/-- An unexpired, correctly-signed refresh token for the blocked user:
the decoded claim set `jwt.verify` yields. -/
def pB10 : AuthTokenPayload :=
  { id := "ub", email := "b10@x.com", role := "user", type := TokenType.REFRESH }

/-! ### Claim C1: createOTP leaves a single pending OTP per (user, purpose) -/

theorem pendingB_iff (now : Nat) (u : String) (p : TOTPPurpose) (o : OTPRec) :
    pendingB now u p o = true ↔
      o.userId = u ∧ o.purpose = p ∧ o.used = false ∧ now < o.expiresAt := by
  simp [pendingB, and_assoc]

theorem defaultedMinutes_pos (m : Option Nat) : 0 < defaultedMinutes m := by
  cases m with
  | none => simp [defaultedMinutes]
  | some k =>
    by_cases hk : k = 0
    · simp [defaultedMinutes, hk]
    · simp [defaultedMinutes, hk]
      omega

/-- C1.  For every database state, completing `OTP.createOTP(u, p, ...)`
(1) turns every previously pending OTP for (u, p) into a used row,
(2) leaves the newly created OTP as the only pending OTP for (u, p), and
(3) leaves the pending set of every other (user, purpose) pair unchanged —
hence at most one pending OTP per (user, purpose) is preserved. -/
theorem createOTP_single_pending (db : DB) (now : Nat) (userId : String)
    (purpose : TOTPPurpose) (code : String) (mins : Option Nat) :
    (∀ o ∈ db.otps, pendingB now userId purpose o = true →
        { o with used := true } ∈ (createOTP db now userId purpose code mins).2.otps) ∧
    (createOTP db now userId purpose code mins).2.otps.filter (pendingB now userId purpose)
      = [(createOTP db now userId purpose code mins).1] ∧
    (∀ u' p', ¬(u' = userId ∧ p' = purpose) →
        (createOTP db now userId purpose code mins).2.otps.filter (pendingB now u' p')
          = db.otps.filter (pendingB now u' p')) := by
  set g : OTPRec → OTPRec := fun o =>
    if pendingB now userId purpose o then { o with used := true } else o with hg
  have hstate : (createOTP db now userId purpose code mins).2.otps
      = db.otps.map g ++ [(createOTP db now userId purpose code mins).1] := rfl
  refine ⟨?_, ?_, ?_⟩
  · intro o ho hpend
    rw [hstate]
    refine List.mem_append_left _ ?_
    have : g o = { o with used := true } := by simp [hg, hpend]
    exact this ▸ List.mem_map_of_mem g ho
  · rw [hstate, List.filter_append]
    have hmap : (db.otps.map g).filter (pendingB now userId purpose) = [] := by
      rw [List.filter_eq_nil_iff]
      intro x hx
      rcases List.mem_map.mp hx with ⟨o, _, rfl⟩
      by_cases hpend : pendingB now userId purpose o
      · have hgo : g o = { o with used := true } := by simp [hg, hpend]
        rw [hgo]
        simp [pendingB]
      · have hgo : g o = o := by simp [hg, hpend]
        rw [hgo]
        simpa using hpend
    have hnew : pendingB now userId purpose (createOTP db now userId purpose code mins).1
        = true := by
      have hpos : 0 < defaultedMinutes mins * 60000 :=
        Nat.mul_pos (defaultedMinutes_pos mins) (by omega)
      simp only [createOTP, pendingB]
      simp
      omega
    simp [hmap, hnew]
  · intro u' p' hne
    rw [hstate, List.filter_append]
    have hnew : pendingB now u' p' (createOTP db now userId purpose code mins).1 = false := by
      by_cases hb : pendingB now u' p' (createOTP db now userId purpose code mins).1
      · exfalso
        rcases (pendingB_iff now u' p' _).mp hb with ⟨h1, h2, _, _⟩
        simp only [createOTP] at h1 h2
        exact hne ⟨h1.symm, h2.symm⟩
      · simpa using hb
    have hmap : (db.otps.map g).filter (pendingB now u' p')
        = db.otps.filter (pendingB now u' p') := by
      rw [List.filter_map]
      have hfix : db.otps.filter (pendingB now u' p' ∘ g) = db.otps.filter (pendingB now u' p') := by
        apply List.filter_congr
        intro o _
        by_cases hpend : pendingB now userId purpose o
        · rcases (pendingB_iff now userId purpose o).mp hpend with ⟨h1, h2, _, _⟩
          have hgo : g o = { o with used := true } := by simp [hg, hpend]
          have hl : pendingB now u' p' (g o) = false := by
            rw [hgo]
            simp [pendingB]
          have hr : pendingB now u' p' o = false := by
            by_cases hb : pendingB now u' p' o
            · exfalso
              rcases (pendingB_iff now u' p' o).mp hb with ⟨h1', h2', _, _⟩
              exact hne ⟨h1' ▸ h1, h2' ▸ h2⟩
            · simpa using hb
          simp [Function.comp, hl, hr]
        · have hgo : g o = o := by simp [hg, hpend]
          simp [Function.comp, hgo]
      rw [hfix]
      have : ∀ o ∈ db.otps.filter (pendingB now u' p'), g o = o := by
        intro o ho
        have hmem := (List.mem_filter.mp ho).2
        rcases (pendingB_iff now u' p' o).mp hmem with ⟨h1, h2, _, _⟩
        have : pendingB now userId purpose o = false := by
          by_cases hb : pendingB now userId purpose o
          · exfalso
            rcases (pendingB_iff now userId purpose o).mp hb with ⟨h1', h2', _, _⟩
            exact hne ⟨h1 ▸ h1', h2 ▸ h2'⟩
          · simpa using hb
        simp [hg, this]
      calc (db.otps.filter (pendingB now u' p')).map g
          = (db.otps.filter (pendingB now u' p')).map id := List.map_congr_left this
        _ = db.otps.filter (pendingB now u' p') := List.map_id _
    simp [hmap, hnew]

/-- Witness for C1 at a concrete state: the previously pending OTP
reappears used, and the new row is the whole pending set. -/
theorem createOTP_single_pending_witness :
    { otp4old with used := true }
      ∈ (createOTP db4 now0 user4.id TOTPPurpose.password_reset code4
          (some OTP_EXPIRY_MINUTES)).2.otps ∧
    (createOTP db4 now0 user4.id TOTPPurpose.password_reset code4
        (some OTP_EXPIRY_MINUTES)).2.otps.filter
        (pendingB now0 user4.id TOTPPurpose.password_reset)
      = [(createOTP db4 now0 user4.id TOTPPurpose.password_reset code4
          (some OTP_EXPIRY_MINUTES)).1] :=
  ⟨(createOTP_single_pending db4 now0 user4.id TOTPPurpose.password_reset code4
      (some OTP_EXPIRY_MINUTES)).1 otp4old (by decide) (by decide),
   (createOTP_single_pending db4 now0 user4.id TOTPPurpose.password_reset code4
      (some OTP_EXPIRY_MINUTES)).2.1⟩

/-! ### Claim C2: concurrent verify-and-consume -/

/-- Counterexample to C2: `verifyAndConsumeOTP` is a `findOne` read
followed by a separate unconditional write, so under the interleaving in
which both calls read before either writes, BOTH concurrent consumption
attempts of the same valid code succeed — not exactly one. -/
theorem verifyAndConsume_race_both_succeed :
    (runRace nowR uidR codeR TOTPPurpose.password_reset dbR schedRacy).t0
      = ConsumerState.done true ∧
    (runRace nowR uidR codeR TOTPPurpose.password_reset dbR schedRacy).t1
      = ConsumerState.done true := by
  refine ⟨by decide, by decide⟩

/-- C2 (amended).  For every valid (pending, matching, unexpired) OTP,
the consume step is a separate read followed by an unconditional write,
not an atomic conditional update: when the two calls run serially the
first succeeds and the second fails (the null that the service surfaces
as INVALID_OTP), but under the interleaving in which both reads precede
both writes, both calls succeed. -/
theorem verifyAndConsume_serial_exclusive_interleaved_not
    (users : List UserRec) (uid code : String) (oid expMs cAt now nid : Nat)
    (h : now < expMs) :
    ((runRace now uid code TOTPPurpose.password_reset
        ⟨users, [⟨oid, uid, code, TOTPPurpose.password_reset, expMs, false, cAt⟩], nid⟩
        schedSerial).t0 = ConsumerState.done true ∧
     (runRace now uid code TOTPPurpose.password_reset
        ⟨users, [⟨oid, uid, code, TOTPPurpose.password_reset, expMs, false, cAt⟩], nid⟩
        schedSerial).t1 = ConsumerState.done false) ∧
    ((runRace now uid code TOTPPurpose.password_reset
        ⟨users, [⟨oid, uid, code, TOTPPurpose.password_reset, expMs, false, cAt⟩], nid⟩
        schedRacy).t0 = ConsumerState.done true ∧
     (runRace now uid code TOTPPurpose.password_reset
        ⟨users, [⟨oid, uid, code, TOTPPurpose.password_reset, expMs, false, cAt⟩], nid⟩
        schedRacy).t1 = ConsumerState.done true) := by
  simp [runRace, schedSerial, schedRacy, raceStep, consumerStep, verifyOTP,
    otpQueryB, markUsedById, List.find?, h]

/-- Witness for the amended C2 at the concrete single-OTP state. -/
theorem verifyAndConsume_serial_exclusive_interleaved_not_witness :
    ((runRace nowR uidR codeR TOTPPurpose.password_reset dbR schedSerial).t0
        = ConsumerState.done true ∧
     (runRace nowR uidR codeR TOTPPurpose.password_reset dbR schedSerial).t1
        = ConsumerState.done false) ∧
    ((runRace nowR uidR codeR TOTPPurpose.password_reset dbR schedRacy).t0
        = ConsumerState.done true ∧
     (runRace nowR uidR codeR TOTPPurpose.password_reset dbR schedRacy).t1
        = ConsumerState.done true) :=
  verifyAndConsume_serial_exclusive_interleaved_not [] uidR codeR 1 2000 100 nowR 2
    (by decide)

/-! ### Claim C4: forgot-password transaction atomicity -/

/-- Counterexample to C4: when a failure strikes between `OTP.createOTP`
and `transaction.commit()`, the workflow throws PASSWORD_RESET_ERROR and
its transaction rolls back — yet both OTP mutations (invalidation of the
old pending row, insertion of the new row) persist, because
`OTP.createOTP` accepts no transaction and wrote on the autocommit
connection. -/
theorem forgotPassword_failure_persists_otp_writes :
    (forgotPassword db4 now0 email4 code4 true).1
        = Except.error ⟨"PASSWORD_RESET_ERROR", 500⟩ ∧
    newOtp4 ∈ (forgotPassword db4 now0 email4 code4 true).2.otps ∧
    { otp4old with used := true } ∈ (forgotPassword db4 now0 email4 code4 true).2.otps ∧
    (forgotPassword db4 now0 email4 code4 true).2 ≠ db4 := by
  refine ⟨by decide, by decide, by decide, by decide⟩

/-- C4 (amended).  In forgot-password, the user lookup and rate-limit
count run inside the workflow transaction, but the OTP invalidation and
new-OTP creation are performed by `OTP.createOTP` outside it: the
resulting database state is exactly the `createOTP` effect whether the
workflow then commits or fails and rolls back, and in the failure case
the caller still receives PASSWORD_RESET_ERROR (500). -/
theorem forgotPassword_otp_writes_commit_independent (db : DB) (now : Nat)
    (email newCode : String) (u : UserRec) (fail : Bool)
    (hu : findUserByEmailILike db email = some u)
    (hcount : countRecentOtps db now u.id TOTPPurpose.password_reset < MAX_ATTEMPTS) :
    (forgotPassword db now email newCode fail).2
      = (createOTP db now u.id TOTPPurpose.password_reset newCode (some OTP_EXPIRY_MINUTES)).2 ∧
    (fail = true →
      (forgotPassword db now email newCode fail).1
        = Except.error ⟨"PASSWORD_RESET_ERROR", 500⟩) := by
  unfold forgotPassword
  rw [hu]
  dsimp only
  rw [if_neg (not_le.mpr hcount)]
  cases fail with
  | false => exact ⟨rfl, by simp⟩
  | true => exact ⟨rfl, fun _ => rfl⟩

/-- Witness for the amended C4: the faulty run at the concrete state. -/
theorem forgotPassword_otp_writes_commit_independent_witness :
    (forgotPassword db4 now0 email4 code4 true).2
      = (createOTP db4 now0 user4.id TOTPPurpose.password_reset code4
          (some OTP_EXPIRY_MINUTES)).2 ∧
    (forgotPassword db4 now0 email4 code4 true).1
      = Except.error ⟨"PASSWORD_RESET_ERROR", 500⟩ :=
  ⟨(forgotPassword_otp_writes_commit_independent db4 now0 email4 code4 user4 true
      (by decide) (by decide)).1,
   (forgotPassword_otp_writes_commit_independent db4 now0 email4 code4 user4 true
      (by decide) (by decide)).2 rfl⟩

/-! ### Claim C5: forgot-password is enumeration-uniform -/

/-- C5.  `forgotPassword` returns the same generic success body and a 200
status on every (non-faulting) run, whether or not the email matches a
stored user; in particular any unknown-email request and any
existing-email request receive identical response bodies and status
codes, and a user-not-found error is never surfaced. -/
theorem forgotPassword_uniform_response (db : DB) (now : Nat) (email newCode : String) :
    (forgotPassword db now email newCode false).1 = Except.ok ⟨forgotSuccessMessage⟩ ∧
    httpStatus (forgotPassword db now email newCode false).1 = 200 := by
  unfold forgotPassword
  cases h : findUserByEmailILike db email with
  | none => exact ⟨rfl, rfl⟩
  | some u =>
    dsimp only
    by_cases hr : MAX_ATTEMPTS ≤ countRecentOtps db now u.id TOTPPurpose.password_reset
    · rw [if_pos hr]
      exact ⟨rfl, rfl⟩
    · rw [if_neg hr]
      exact ⟨rfl, rfl⟩

/-! ### Claim C6 / C7: OTP rate limiting -/

/-- Shared helper: once the trailing-window count reaches `MAX_ATTEMPTS`,
`forgotPassword` returns the generic success response and leaves the
database untouched (no new row, no mutated row). -/
theorem forgotPassword_rateLimited (db : DB) (now : Nat) (email newCode : String)
    (fail : Bool) (u : UserRec)
    (hu : findUserByEmailILike db email = some u)
    (hcount : MAX_ATTEMPTS ≤ countRecentOtps db now u.id TOTPPurpose.password_reset) :
    forgotPassword db now email newCode fail = (Except.ok ⟨forgotSuccessMessage⟩, db) := by
  unfold forgotPassword
  rw [hu]
  simp [hcount]

/-- C6.  If at least `MAX_ATTEMPTS` (3) password-reset OTP rows were
created for a user inside the trailing 15-minute window, a further
forgot-password request for that user's email returns the same generic
success message and returns the database unchanged: no OTP row is
created and none is mutated. -/
theorem forgotPassword_rate_limit_noop (db : DB) (now : Nat) (email newCode : String)
    (fail : Bool) (u : UserRec)
    (hu : findUserByEmailILike db email = some u)
    (hcount : MAX_ATTEMPTS ≤ countRecentOtps db now u.id TOTPPurpose.password_reset) :
    forgotPassword db now email newCode fail = (Except.ok ⟨forgotSuccessMessage⟩, db) :=
  forgotPassword_rateLimited db now email newCode fail u hu hcount

/-- Witness for C6: a user with three in-window password-reset OTPs,
queried with an upper-cased spelling of the stored email. -/
theorem forgotPassword_rate_limit_noop_witness :
    forgotPassword db6 now0 email6upper code6 false = (Except.ok ⟨forgotSuccessMessage⟩, db6) :=
  forgotPassword_rate_limit_noop db6 now0 email6upper code6 false user6
    (by decide) (by decide)

/-- Counterexample to C7: with three in-window email-verification OTPs,
`requestEmailVerification` does not silently no-op with a generic
success — it fails with RATE_LIMITED and the controller surfaces 429. -/
theorem requestEmailVerification_rate_limit_throws :
    (requestEmailVerification db7 now0 uid7 code7).1 = Except.error ⟨"RATE_LIMITED", 429⟩ ∧
    httpStatus (requestEmailVerification db7 now0 uid7 code7).1 = 429 ∧
    exceptIsOk (requestEmailVerification db7 now0 uid7 code7).1 = false := by
  refine ⟨rfl, rfl, rfl⟩

/-- C7 (amended).  With at least 3 OTPs created for (user, purpose) in
the trailing 15-minute window, neither issuing path creates a new OTP,
but their surface behavior differs by purpose: forgot-password
(password_reset) silently returns the generic success message, while
request-email-verification (email_verification) fails with RATE_LIMITED
(429). -/
theorem rate_limited_issue_paths (db : DB) (now : Nat) :
    (∀ email newCode fail u, findUserByEmailILike db email = some u →
      MAX_ATTEMPTS ≤ countRecentOtps db now u.id TOTPPurpose.password_reset →
      forgotPassword db now email newCode fail = (Except.ok ⟨forgotSuccessMessage⟩, db)) ∧
    (∀ userId newCode u, findByPk db userId = some u →
      u.emailVerified = false →
      MAX_ATTEMPTS ≤ countRecentOtps db now u.id TOTPPurpose.email_verification →
      requestEmailVerification db now userId newCode = (Except.error ⟨"RATE_LIMITED", 429⟩, db)) := by
  constructor
  · intro email newCode fail u hu hcount
    exact forgotPassword_rateLimited db now email newCode fail u hu hcount
  · intro userId newCode u hu hver hcount
    unfold requestEmailVerification
    rw [hu]
    simp [hver, hcount]

/-- Witness for the amended C7, applying both branches at the fixtures. -/
theorem rate_limited_issue_paths_witness :
    forgotPassword db6 now0 email6upper code6 true = (Except.ok ⟨forgotSuccessMessage⟩, db6) ∧
    requestEmailVerification db7 now0 uid7 code7 = (Except.error ⟨"RATE_LIMITED", 429⟩, db7) :=
  ⟨(rate_limited_issue_paths db6 now0).1 email6upper code6 true user6 (by decide) (by decide),
   (rate_limited_issue_paths db7 now0).2 uid7 code7 user7 (by decide) (by decide) (by decide)⟩

/-! ### Claim C3: login status gate -/

/-- C3 (divergence witness).  The login lookup filters on
`status: ["active", "inactive"]`, so a blocked user is never found and
the `ACCOUNT_BLOCKED` branch is unreachable: a login attempt by a
blocked user with the CORRECT password fails with INVALID_CREDENTIALS
(401), not ACCOUNT_BLOCKED (403).  The inactive half of the claim holds:
an inactive user with the correct password logs in successfully. -/
theorem login_blocked_gets_invalid_credentials :
    verifyPassword user3b.password pw3 = true ∧
    user3b.status = UserStatus.blocked ∧
    login db3 email3b pw3 = Except.error ⟨"INVALID_CREDENTIALS", 401⟩ ∧
    httpStatus (login db3 email3b pw3) = 401 ∧
    exceptIsOk (login db3 email3i pw3) = true := by
  refine ⟨by decide, by decide, by decide, by decide, by decide⟩

/-! ### Claim C10: refresh-token has no status gate -/

/-- C10.  `refreshToken` checks only the decoded type and the user's
existence: for every stored user — regardless of `status`, including
blocked — a correctly-signed, unexpired REFRESH-typed token yields a
fresh access/refresh pair. -/
theorem refreshToken_no_status_check (db : DB) (p : AuthTokenPayload) (u : UserRec)
    (htype : p.type = TokenType.REFRESH)
    (hu : findByPk db p.id = some u) :
    refreshTokenService db (some p) = Except.ok (generateAuthTokens u) := by
  unfold refreshTokenService
  simp [htype, hu]

/-- Witness for C10: a blocked user still refreshes successfully. -/
theorem refreshToken_no_status_check_witness :
    userB10.status = UserStatus.blocked ∧
    refreshTokenService dbB10 (some pB10) = Except.ok (generateAuthTokens userB10) :=
  ⟨by decide, refreshToken_no_status_check dbB10 pB10 userB10 (by decide) (by decide)⟩

/-! ### Claim C8: a consumed OTP stays consumed -/

theorem otpQueryB_iff (now : Nat) (uid c : String) (p : TOTPPurpose) (o : OTPRec) :
    otpQueryB now uid c p o = true ↔
      o.userId = uid ∧ o.code = c ∧ o.purpose = p ∧ o.used = false ∧ now < o.expiresAt := by
  simp [otpQueryB, and_assoc]

/-- Master preservation lemma: if an operation turns the OTP table into a
row-wise image under a function that either keeps a row or merely sets
`used := true`, plus some fresh rows whose ids collide with no existing
row, then every used row stays used. -/
theorem usedPreserved_shape (pre post : DB) (g : OTPRec → OTPRec) (extra : List OTPRec)
    (hshape : post.otps = pre.otps.map g ++ extra)
    (hg : ∀ o, g o = o ∨ g o = { o with used := true })
    (hids : ∀ o1 ∈ pre.otps, ∀ o2 ∈ pre.otps, o1.id = o2.id → o1 = o2)
    (hextra : ∀ e ∈ extra, ∀ o ∈ pre.otps, ¬e.id = o.id) :
    usedPreserved pre post := by
  intro o ho hused o' ho' hid
  rw [hshape] at ho'
  rcases List.mem_append.mp ho' with hmem | hmem
  · rcases List.mem_map.mp hmem with ⟨x, hx, rfl⟩
    rcases hg x with hgx | hgx
    · rw [hgx] at hid ⊢
      rw [hids x hx o ho hid]
      exact hused
    · rw [hgx]
  · exact absurd hid (hextra o' hmem o ho)

theorem usedPreserved_refl (db : DB)
    (hids : ∀ o1 ∈ db.otps, ∀ o2 ∈ db.otps, o1.id = o2.id → o1 = o2) :
    usedPreserved db db := by
  refine usedPreserved_shape db db id [] (by simp) (fun o => Or.inl rfl) hids (by simp)

theorem usedPreserved_markUsedById (db : DB) (i : Nat)
    (hids : ∀ o1 ∈ db.otps, ∀ o2 ∈ db.otps, o1.id = o2.id → o1 = o2) :
    usedPreserved db (markUsedById db i) := by
  refine usedPreserved_shape db (markUsedById db i)
    (fun o => if o.id = i then { o with used := true } else o) []
    (by rw [List.append_nil]; rfl) ?_ hids (by simp)
  intro o
  by_cases h : o.id = i
  · exact Or.inr (by simp [h])
  · exact Or.inl (by simp [h])

theorem usedPreserved_createOTP (db : DB) (now : Nat) (uid : String)
    (p : TOTPPurpose) (c : String) (mins : Option Nat)
    (hids : ∀ o1 ∈ db.otps, ∀ o2 ∈ db.otps, o1.id = o2.id → o1 = o2)
    (hfresh : ∀ o ∈ db.otps, o.id < db.nextOtpId) :
    usedPreserved db (createOTP db now uid p c mins).2 := by
  refine usedPreserved_shape db (createOTP db now uid p c mins).2
    (fun o => if pendingB now uid p o then { o with used := true } else o)
    [(createOTP db now uid p c mins).1] rfl ?_ hids ?_
  · intro o
    by_cases h : pendingB now uid p o
    · exact Or.inr (by simp [h])
    · exact Or.inl (by simp [h])
  · intro e he o ho
    have : e = (createOTP db now uid p c mins).1 := by simpa using he
    rw [this]
    have : (createOTP db now uid p c mins).1.id = db.nextOtpId := rfl
    rw [this]
    exact Nat.ne_of_gt (hfresh o ho)

theorem usedPreserved_cleanup (db : DB) (now : Nat)
    (hids : ∀ o1 ∈ db.otps, ∀ o2 ∈ db.otps, o1.id = o2.id → o1 = o2) :
    usedPreserved db (cleanupExpiredOTPs db now).2 := by
  refine usedPreserved_shape db (cleanupExpiredOTPs db now).2
    (fun o => if !o.used && decide (o.expiresAt < now) then { o with used := true } else o)
    [] (by rw [List.append_nil]; rfl) ?_ hids (by simp)
  intro o
  by_cases h : (!o.used && decide (o.expiresAt < now)) = true
  · exact Or.inr (by simp [h])
  · exact Or.inl (by simp [h])

theorem usedPreserved_verifyAndConsume (db : DB) (now : Nat) (uid c : String)
    (p : TOTPPurpose)
    (hids : ∀ o1 ∈ db.otps, ∀ o2 ∈ db.otps, o1.id = o2.id → o1 = o2) :
    usedPreserved db (verifyAndConsumeOTP db now uid c p).2 := by
  unfold verifyAndConsumeOTP
  cases h : verifyOTP db now uid c p with
  | none => exact usedPreserved_refl db hids
  | some o => exact usedPreserved_markUsedById db o.id hids

theorem usedPreserved_verifyOtpService (db : DB) (now : Nat) (e c : String)
    (hids : ∀ o1 ∈ db.otps, ∀ o2 ∈ db.otps, o1.id = o2.id → o1 = o2) :
    usedPreserved db (verifyOtpService db now e c).2 := by
  unfold verifyOtpService
  cases hu : findUserByEmailILike db e with
  | none => exact usedPreserved_refl db hids
  | some u =>
    dsimp only
    cases hF : (db.otps.filter (otpQueryB now u.id c TOTPPurpose.password_reset)).argmax
        OTPRec.createdAt with
    | none => exact usedPreserved_refl db hids
    | some r => exact usedPreserved_markUsedById db r.id hids

theorem usedPreserved_resetPassword (db : DB) (pl : Option ResetTokenPayload)
    (npw : String)
    (hids : ∀ o1 ∈ db.otps, ∀ o2 ∈ db.otps, o1.id = o2.id → o1 = o2) :
    usedPreserved db (resetPassword db pl npw).2 := by
  unfold resetPassword
  cases pl with
  | none => exact usedPreserved_refl db hids
  | some p =>
    dsimp only
    by_cases hp : p.purpose ≠ "password_reset"
    · rw [if_pos hp]
      exact usedPreserved_refl db hids
    · rw [if_neg hp]
      cases hu : findByPk db p.sub with
      | none => exact usedPreserved_refl db hids
      | some u =>
        dsimp only
        by_cases hs : verifyPassword u.password npw
        · rw [if_pos hs]
          exact usedPreserved_refl db hids
        · rw [if_neg hs]
          refine usedPreserved_shape db _ (resetInvalidate u.id) []
            (by rw [List.append_nil]; rfl) ?_ hids (by simp)
          intro o
          unfold resetInvalidate
          by_cases h : (decide (o.userId = u.id) && decide (o.purpose = TOTPPurpose.password_reset)
              && !o.used) = true
          · exact Or.inr (by simp [h])
          · exact Or.inl (by simp [h])

theorem usedPreserved_requestEmailVerification (db : DB) (now : Nat) (uid c : String)
    (hids : ∀ o1 ∈ db.otps, ∀ o2 ∈ db.otps, o1.id = o2.id → o1 = o2)
    (hfresh : ∀ o ∈ db.otps, o.id < db.nextOtpId) :
    usedPreserved db (requestEmailVerification db now uid c).2 := by
  unfold requestEmailVerification
  cases hu : findByPk db uid with
  | none => exact usedPreserved_refl db hids
  | some u =>
    dsimp only
    by_cases hv : u.emailVerified = true
    · rw [if_pos hv]
      exact usedPreserved_refl db hids
    · rw [if_neg hv]
      by_cases hr : MAX_ATTEMPTS ≤ countRecentOtps db now u.id TOTPPurpose.email_verification
      · rw [if_pos hr]
        exact usedPreserved_refl db hids
      · rw [if_neg hr]
        exact usedPreserved_createOTP db now u.id TOTPPurpose.email_verification c
          (some OTP_EXPIRY_MINUTES) hids hfresh

theorem usedPreserved_forgotPassword (db : DB) (now : Nat) (e c : String) (fl : Bool)
    (hids : ∀ o1 ∈ db.otps, ∀ o2 ∈ db.otps, o1.id = o2.id → o1 = o2)
    (hfresh : ∀ o ∈ db.otps, o.id < db.nextOtpId) :
    usedPreserved db (forgotPassword db now e c fl).2 := by
  unfold forgotPassword
  cases hu : findUserByEmailILike db e with
  | none => exact usedPreserved_refl db hids
  | some u =>
    dsimp only
    by_cases hr : MAX_ATTEMPTS ≤ countRecentOtps db now u.id TOTPPurpose.password_reset
    · rw [if_pos hr]
      exact usedPreserved_refl db hids
    · rw [if_neg hr]
      cases fl with
      | false =>
        exact usedPreserved_createOTP db now u.id TOTPPurpose.password_reset c
          (some OTP_EXPIRY_MINUTES) hids hfresh
      | true =>
        exact usedPreserved_createOTP db now u.id TOTPPurpose.password_reset c
          (some OTP_EXPIRY_MINUTES) hids hfresh

/-- C8.  After a successful verify-otp consumption, a second verify-otp
request with the same (email, code) at any later instant fails with
INVALID_OTP; moreover no OTP-mutating operation of the codebase ever
turns a used row back into an unused one (`used: false → true` is
one-way).  Hypotheses: the OTP ids are distinct, fresh ids do not
collide, and — as `createOTP` guarantees (claim C1) — at most one
pending row matches the consumed (user, code, purpose). -/
theorem verifyOtp_consume_once (db : DB) (now now2 : Nat) (email code : String)
    (u : UserRec) (tok : ResetTokenPayload) (db' : DB)
    (hu : findUserByEmailILike db email = some u)
    (hids : ∀ o1 ∈ db.otps, ∀ o2 ∈ db.otps, o1.id = o2.id → o1 = o2)
    (hfresh : ∀ o ∈ db.otps, o.id < db.nextOtpId)
    (huniq : ∀ o1 ∈ db.otps, ∀ o2 ∈ db.otps,
        otpQueryB now u.id code TOTPPurpose.password_reset o1 = true →
        otpQueryB now u.id code TOTPPurpose.password_reset o2 = true → o1 = o2)
    (hrun : verifyOtpService db now email code = (Except.ok tok, db'))
    (hnow : now ≤ now2) :
    (verifyOtpService db' now2 email code).1 = Except.error ⟨"INVALID_OTP", 400⟩ ∧
    usedPreserved db db' ∧
    (∀ uid p c mins, usedPreserved db (createOTP db now uid p c mins).2) ∧
    (∀ uid c p, usedPreserved db (verifyAndConsumeOTP db now uid c p).2) ∧
    (∀ e c, usedPreserved db (verifyOtpService db now e c).2) ∧
    (∀ pl npw, usedPreserved db (resetPassword db pl npw).2) ∧
    (∀ uid c, usedPreserved db (requestEmailVerification db now uid c).2) ∧
    (∀ e c fl, usedPreserved db (forgotPassword db now e c fl).2) ∧
    usedPreserved db (cleanupExpiredOTPs db now).2 := by
  unfold verifyOtpService at hrun
  rw [hu] at hrun
  dsimp only at hrun
  cases hF : (db.otps.filter (otpQueryB now u.id code TOTPPurpose.password_reset)).argmax
      OTPRec.createdAt with
  | none =>
    rw [hF] at hrun
    exact absurd (congrArg Prod.fst hrun) (by simp)
  | some r =>
    rw [hF] at hrun
    have hdb' : db' = markUsedById db r.id := (congrArg Prod.snd hrun).symm
    have hr_filter : r ∈ db.otps.filter (otpQueryB now u.id code TOTPPurpose.password_reset) :=
      List.argmax_mem hF
    obtain ⟨hr_mem, hr_q⟩ := List.mem_filter.mp hr_filter
    refine ⟨?_, ?_, ?_, ?_, ?_, ?_, ?_, ?_, ?_⟩
    · unfold verifyOtpService
      have husers : findUserByEmailILike db' email = some u := by
        rw [hdb']
        exact hu
      rw [husers]
      dsimp only
      have hempty : db'.otps.filter (otpQueryB now2 u.id code TOTPPurpose.password_reset)
          = [] := by
        rw [List.filter_eq_nil_iff]
        intro x hx
        rw [hdb'] at hx
        rcases List.mem_map.mp hx with ⟨y, hy, rfl⟩
        by_cases hyid : y.id = r.id
        · have hgy : (if y.id = r.id then { y with used := true } else y)
              = { y with used := true } := by simp [hyid]
          rw [hgy]
          simp [otpQueryB]
        · have hgy : (if y.id = r.id then { y with used := true } else y) = y := by
            simp [hyid]
          rw [hgy]
          intro hq2
          rcases (otpQueryB_iff now2 u.id code TOTPPurpose.password_reset y).mp hq2 with
            ⟨h1, h2, h3, h4, h5⟩
          have hq1 : otpQueryB now u.id code TOTPPurpose.password_reset y = true :=
            (otpQueryB_iff now u.id code TOTPPurpose.password_reset y).mpr
              ⟨h1, h2, h3, h4, lt_of_le_of_lt hnow h5⟩
          exact hyid (congrArg OTPRec.id (huniq y hy r hr_mem hq1 hr_q))
      rw [hempty, List.argmax_nil]
    · rw [hdb']
      exact usedPreserved_markUsedById db r.id hids
    · intro uid p c mins
      exact usedPreserved_createOTP db now uid p c mins hids hfresh
    · intro uid c p
      exact usedPreserved_verifyAndConsume db now uid c p hids
    · intro e c
      exact usedPreserved_verifyOtpService db now e c hids
    · intro pl npw
      exact usedPreserved_resetPassword db pl npw hids
    · intro uid c
      exact usedPreserved_requestEmailVerification db now uid c hids hfresh
    · intro e c fl
      exact usedPreserved_forgotPassword db now e c fl hids hfresh
    · exact usedPreserved_cleanup db now hids

/-- Witness for C8: consuming the pending code and presenting it again. -/
theorem verifyOtp_consume_once_witness :
    (verifyOtpService db8after 2000 email8 code8).1 = Except.error ⟨"INVALID_OTP", 400⟩ :=
  (verifyOtp_consume_once db8 1000 2000 email8 code8 user8 tok8 db8after
    (by decide) (by decide) (by decide) (by decide) rfl (by decide)).1

/-! ### Claim C9: reset-password -/

theorem find?_map_pred_invariant {α : Type} (l : List α) (f : α → α) (p : α → Bool)
    (h : ∀ a, p (f a) = p a) :
    (l.map f).find? p = Option.map f (l.find? p) := by
  induction l with
  | nil => rfl
  | cons a t ih =>
    cases hpa : p a with
    | true =>
      have hfa : p (f a) = true := by rw [h a, hpa]
      rw [List.map_cons, List.find?_cons_of_pos _ hfa, List.find?_cons_of_pos _ hpa]
      rfl
    | false =>
      have hfa : ¬p (f a) = true := by rw [h a, hpa]; simp
      have hpa' : ¬p a = true := by rw [hpa]; simp
      rw [List.map_cons, List.find?_cons_of_neg _ hfa, List.find?_cons_of_neg _ hpa']
      exact ih

/-- Counterexample to C9: the new password `cornerPw9` differs from the
current password (the code's own SAME_PASSWORD check classifies it as
different) and the reset succeeds, yet because the new value is
verbatim the stored bcrypt hash string, the beforeUpdate hook's
`changed("password")` guard (`comments.models.ts` lines 502-508) skips
re-hashing: the stored credential is unchanged and login with the OLD
password still succeeds afterwards — the claim says it must fail. -/
theorem resetPassword_hash_string_noop :
    cornerPw9 ≠ pwOld9 ∧
    verifyPassword user9.password cornerPw9 = false ∧
    (resetPassword db9 (some p9) cornerPw9).1
      = Except.ok ⟨"Password updated successfully"⟩ ∧
    findByPk (resetPassword db9 (some p9) cornerPw9).2 p9.sub = some user9 ∧
    exceptIsOk (login (resetPassword db9 (some p9) cornerPw9).2 email9 pwOld9) = true := by
  refine ⟨by decide, by decide, by decide, by decide, by decide⟩

/-- C9 (amended).  Holding a valid password_reset token for user `u`
(whose current password is `oldPw`): resetting to the same password
fails with SAME_PASSWORD (400) and changes nothing; resetting to a
different password succeeds and marks every password_reset OTP of the
user used, and — unless the new password is verbatim the stored bcrypt
hash string — stores the new hash, after which login with the old
password fails with INVALID_CREDENTIALS and login with the new
password succeeds.  In the verbatim-hash corner case the beforeUpdate
hook's `changed("password")` guard skips re-hashing: the request still
succeeds, the stored credential is untouched, and the old password
continues to log in. -/
theorem resetPassword_same_rejected_new_applied (db : DB) (p : ResetTokenPayload)
    (newPw oldPw emailInput : String) (u : UserRec)
    (hp : p.purpose = "password_reset")
    (hub : findByPk db p.sub = some u)
    (hlogin : loginFindUser db emailInput = some u)
    (hold : verifyPassword u.password oldPw = true) :
    (verifyPassword u.password newPw = true →
      resetPassword db (some p) newPw = (Except.error ⟨"SAME_PASSWORD", 400⟩, db)) ∧
    (verifyPassword u.password newPw = false → ¬newPw = u.password →
      (resetPassword db (some p) newPw).1 = Except.ok ⟨"Password updated successfully"⟩ ∧
      findByPk (resetPassword db (some p) newPw).2 p.sub
        = some { u with password := bcryptHash newPw } ∧
      login (resetPassword db (some p) newPw).2 emailInput oldPw
        = Except.error ⟨"INVALID_CREDENTIALS", 401⟩ ∧
      exceptIsOk (login (resetPassword db (some p) newPw).2 emailInput newPw) = true ∧
      (∀ o ∈ (resetPassword db (some p) newPw).2.otps,
        o.userId = u.id → o.purpose = TOTPPurpose.password_reset → o.used = true)) ∧
    (verifyPassword u.password newPw = false → newPw = u.password →
      (resetPassword db (some p) newPw).1 = Except.ok ⟨"Password updated successfully"⟩ ∧
      findByPk (resetPassword db (some p) newPw).2 p.sub = some u ∧
      exceptIsOk (login (resetPassword db (some p) newPw).2 emailInput oldPw) = true ∧
      (∀ o ∈ (resetPassword db (some p) newPw).2.otps,
        o.userId = u.id → o.purpose = TOTPPurpose.password_reset → o.used = true)) := by
  have hupw : u.password = bcryptHash oldPw := by
    unfold verifyPassword at hold
    exact of_decide_eq_true hold
  have hloginPred := List.find?_some hlogin
  rw [Bool.and_eq_true] at hloginPred
  have hstat : u.status = UserStatus.active ∨ u.status = UserStatus.inactive :=
    of_decide_eq_true hloginPred.2
  have hnotblocked : ¬u.status = UserStatus.blocked := by
    rcases hstat with h | h
    · rw [h]; intro hc; cases hc
    · rw [h]; intro hc; cases hc
  have hR : ∀ q : String, verifyPassword u.password q = false →
      resetPassword db (some p) q
        = (Except.ok ⟨"Password updated successfully"⟩,
           { users := db.users.map (fun v =>
               if v.id = u.id then applyPasswordUpdate q v else v)
             otps := db.otps.map (resetInvalidate u.id)
             nextOtpId := db.nextOtpId }) := by
    intro q hq
    unfold resetPassword
    dsimp only
    rw [if_neg (by simp [hp]), hub]
    dsimp only
    rw [if_neg (by simp [hq])]
    rfl
  have hotps : ∀ q : String, verifyPassword u.password q = false →
      ∀ o ∈ (resetPassword db (some p) q).2.otps,
        o.userId = u.id → o.purpose = TOTPPurpose.password_reset → o.used = true := by
    intro q hq o ho h1 h2
    rw [hR q hq] at ho
    dsimp only at ho
    rcases List.mem_map.mp ho with ⟨y, hy, rfl⟩
    unfold resetInvalidate
    unfold resetInvalidate at h1 h2
    by_cases hc : (decide (y.userId = u.id) && decide (y.purpose = TOTPPurpose.password_reset)
        && !y.used) = true
    · rw [if_pos hc]
    · rw [if_neg hc]
      rw [if_neg hc] at h1 h2
      by_cases hused : y.used = true
      · exact hused
      · exfalso
        apply hc
        have hus : y.used = false := by
          rw [Bool.not_eq_true] at hused
          exact hused
        rw [decide_eq_true h1, decide_eq_true h2, hus]
        rfl
  refine ⟨?_, ?_, ?_⟩
  · intro hsame
    unfold resetPassword
    dsimp only
    rw [if_neg (by simp [hp]), hub]
    dsimp only
    rw [if_pos hsame]
  · intro hdiff hne
    have hnewne : ¬u.password = bcryptHash newPw := by
      unfold verifyPassword at hdiff
      exact of_decide_eq_false hdiff
    have hhashne : ¬bcryptHash newPw = bcryptHash oldPw := by
      intro hEq
      exact hnewne (by rw [hupw, hEq])
    have hfindpk : findByPk (resetPassword db (some p) newPw).2 p.sub
        = some { u with password := bcryptHash newPw } := by
      rw [hR newPw hdiff]
      unfold findByPk
      dsimp only
      rw [find?_map_pred_invariant db.users _ _ ?hinv]
      case hinv =>
        intro a
        by_cases h : a.id = u.id
        · by_cases h2 : newPw = a.password
          · simp [h, h2, applyPasswordUpdate]
          · simp [h, h2, applyPasswordUpdate]
        · simp [h]
      have hub' : db.users.find? (fun v => decide (v.id = p.sub)) = some u := hub
      rw [hub']
      simp [applyPasswordUpdate, hne]
    have hfindlogin : (resetPassword db (some p) newPw).2.users.find?
          (fun v => decide (v.email = lowerStr emailInput)
            && decide (v.status = UserStatus.active ∨ v.status = UserStatus.inactive))
        = some { u with password := bcryptHash newPw } := by
      rw [hR newPw hdiff]
      dsimp only
      rw [find?_map_pred_invariant db.users _ _ ?hinv2]
      case hinv2 =>
        intro a
        by_cases h : a.id = u.id
        · by_cases h2 : newPw = a.password
          · simp [h, h2, applyPasswordUpdate]
          · simp [h, h2, applyPasswordUpdate]
        · simp [h]
      have hlogin' : db.users.find?
          (fun v => decide (v.email = lowerStr emailInput)
            && decide (v.status = UserStatus.active ∨ v.status = UserStatus.inactive))
          = some u := hlogin
      rw [hlogin']
      simp [applyPasswordUpdate, hne]
    refine ⟨by rw [hR newPw hdiff], hfindpk, ?_, ?_, hotps newPw hdiff⟩
    · unfold login loginFindUser
      rw [hfindlogin]
      dsimp only
      have hvf : verifyPassword
          ({ u with password := bcryptHash newPw } : UserRec).password oldPw = false := by
        unfold verifyPassword
        dsimp only
        exact decide_eq_false hhashne
      rw [if_pos (by rw [hvf]; rfl)]
    · unfold login loginFindUser
      rw [hfindlogin]
      dsimp only
      have hvt : verifyPassword
          ({ u with password := bcryptHash newPw } : UserRec).password newPw = true := by
        unfold verifyPassword
        dsimp only
        exact decide_eq_true rfl
      rw [if_neg (by rw [hvt]; simp), if_neg (by exact hnotblocked)]
      rfl
  · intro hdiff heq
    have hfindpk : findByPk (resetPassword db (some p) newPw).2 p.sub = some u := by
      rw [hR newPw hdiff]
      unfold findByPk
      dsimp only
      rw [find?_map_pred_invariant db.users _ _ ?hinv3]
      case hinv3 =>
        intro a
        by_cases h : a.id = u.id
        · by_cases h2 : newPw = a.password
          · simp [h, h2, applyPasswordUpdate]
          · simp [h, h2, applyPasswordUpdate]
        · simp [h]
      have hub' : db.users.find? (fun v => decide (v.id = p.sub)) = some u := hub
      rw [hub']
      simp [applyPasswordUpdate, heq]
    have hfindlogin : (resetPassword db (some p) newPw).2.users.find?
          (fun v => decide (v.email = lowerStr emailInput)
            && decide (v.status = UserStatus.active ∨ v.status = UserStatus.inactive))
        = some u := by
      rw [hR newPw hdiff]
      dsimp only
      rw [find?_map_pred_invariant db.users _ _ ?hinv4]
      case hinv4 =>
        intro a
        by_cases h : a.id = u.id
        · by_cases h2 : newPw = a.password
          · simp [h, h2, applyPasswordUpdate]
          · simp [h, h2, applyPasswordUpdate]
        · simp [h]
      have hlogin' : db.users.find?
          (fun v => decide (v.email = lowerStr emailInput)
            && decide (v.status = UserStatus.active ∨ v.status = UserStatus.inactive))
          = some u := hlogin
      rw [hlogin']
      simp [applyPasswordUpdate, heq]
    refine ⟨by rw [hR newPw hdiff], hfindpk, ?_, hotps newPw hdiff⟩
    unfold login loginFindUser
    rw [hfindlogin]
    dsimp only
    rw [if_neg (by rw [hold]; simp), if_neg (by exact hnotblocked)]
    rfl

/-- Witness for the amended C9: same-password reset rejected;
genuinely-new password applied (old stops working, new logs in); the
stored-hash-string corner password leaves the old password working. -/
theorem resetPassword_same_rejected_new_applied_witness :
    resetPassword db9 (some p9) pwOld9 = (Except.error ⟨"SAME_PASSWORD", 400⟩, db9) ∧
    (resetPassword db9 (some p9) pwNew9).1 = Except.ok ⟨"Password updated successfully"⟩ ∧
    login (resetPassword db9 (some p9) pwNew9).2 email9 pwOld9
      = Except.error ⟨"INVALID_CREDENTIALS", 401⟩ ∧
    exceptIsOk (login (resetPassword db9 (some p9) pwNew9).2 email9 pwNew9) = true ∧
    exceptIsOk (login (resetPassword db9 (some p9) cornerPw9).2 email9 pwOld9) = true :=
  ⟨(resetPassword_same_rejected_new_applied db9 p9 pwOld9 pwOld9 email9 user9
      (by decide) (by decide) (by decide) (by decide)).1 (by decide),
   ((resetPassword_same_rejected_new_applied db9 p9 pwNew9 pwOld9 email9 user9
      (by decide) (by decide) (by decide) (by decide)).2.1 (by decide) (by decide)).1,
   ((resetPassword_same_rejected_new_applied db9 p9 pwNew9 pwOld9 email9 user9
      (by decide) (by decide) (by decide) (by decide)).2.1 (by decide) (by decide)).2.2.1,
   ((resetPassword_same_rejected_new_applied db9 p9 pwNew9 pwOld9 email9 user9
      (by decide) (by decide) (by decide) (by decide)).2.1 (by decide) (by decide)).2.2.2.1,
   ((resetPassword_same_rejected_new_applied db9 p9 cornerPw9 pwOld9 email9 user9
      (by decide) (by decide) (by decide) (by decide)).2.2 (by decide) (by decide)).2.2.1⟩

end AuthCore
